import Mathlib

/-!
Verification of the serial-port transport core of lean-link.

The definitions below are a shallow embedding of the live serial-port
subsystem (src/src/service/serialport/{mod,inner,holder}.rs):

* `SerialPortConfig` — the per-port configuration value type;
* `SerialPortInner` — the group state (member holders keyed by path, and
  the aggregate ack counter `res_counter : AtomicI16`, here an `Int`);
* the group operations `_write`, `write`, `write_need_ack`, `add_config`,
  `remove_config`, and the ack-aggregation consumer
  `handleFromPortEvent` (the body of `_start_holder_event`);
* `SerialPortDevice` — the name → group registry of mod.rs;
* fuel-bounded traces of the two background loops of holder.rs:
  `_start_open` (reconnect loop) and the read/write loop (`rwStep`,
  `rwIter`, `rwRun`).

Channel sends are modelled by a per-holder `sendOk` flag (whether the
member's command channel currently accepts sends), and the nondeterminism
of the tokio select loops by explicit per-iteration inputs.
-/

deriving instance DecidableEq for Except

namespace LeanLink

/-- Data bits setting, mirroring tokio_serial::DataBits. -/
inductive DataBits
  | five | six | seven | eight
deriving DecidableEq, Repr

/-- Stop bits setting, mirroring tokio_serial::StopBits. -/
inductive StopBits
  | one | two
deriving DecidableEq, Repr

/-- Parity setting, mirroring tokio_serial::Parity. -/
inductive Parity
  | pnone | odd | even
deriving DecidableEq, Repr

/-- Flow control setting, mirroring tokio_serial::FlowControl. -/
inductive FlowControl
  | fnone | software | hardware
deriving DecidableEq, Repr

/-- Serial port configuration (holder.rs, `SerialPortConfig`).
The timeout duration is in milliseconds. -/
structure SerialPortConfig where
  path : String
  baud_rate : Nat
  data_bits : DataBits
  flow_control : FlowControl
  parity : Parity
  stop_bits : StopBits
  timeout : Nat
deriving DecidableEq, Repr

/-- Events a holder emits upstream (`FromPortEvent` as used by holder.rs
and inner.rs: Ack, Timeout, Close, HeartbeatAck, HeartbeatTimeout). -/
inductive FromPortEvent
  | ack | timeout | close | heartbeatAck | heartbeatTimeout
deriving DecidableEq, Repr

/-- Commands sent to a holder's read/write loop (`ToPortEvent` as matched
in holder.rs: Write, Ack, Heartbeat, Stop). Byte payloads are `List Nat`. -/
inductive ToPortEvent
  | write (data : List Nat) (need_ack : Bool)
  | ack
  | heartbeat
  | stop
deriving DecidableEq, Repr

/-- A member holder as seen from `SerialPortInner`: the configuration it
was built from and whether its `to_port_event_tx` channel currently
accepts sends (a send fails when the receiving loop is gone). -/
structure HolderRef where
  config : SerialPortConfig
  sendOk : Bool
deriving DecidableEq, Repr

/-- Error kinds returned by the write paths, mirroring the
`std::io::ErrorKind` values used in the source: NotFound, ResourceBusy,
and Other (a failed channel send). -/
inductive WErr
  | notFound | busy | ioError
deriving DecidableEq, Repr

/-- Group state (inner.rs, `SerialPortInner`): the member holders keyed by
path (`port_holders`), and the aggregate ack counter (`res_counter`,
an `AtomicI16` initialised to `-1`). -/
structure SerialPortInner where
  portHolders : List (String × HolderRef)
  resCounter : Int
deriving DecidableEq, Repr

namespace SerialPortInner

/-- Reset the counter to idle (inner.rs `_ack_finished`: store(-1)). -/
def _ack_finished (s : SerialPortInner) : SerialPortInner :=
  { s with resCounter := -1 }

/-- Start a new aggregate wait (inner.rs `_ack_reset`: store(0)). -/
def _ack_reset (s : SerialPortInner) : SerialPortInner :=
  { s with resCounter := 0 }

/-- Busy check (inner.rs `_is_waiting_ack`: counter ≥ 0). -/
def _is_waiting_ack (s : SerialPortInner) : Bool :=
  decide (0 ≤ s.resCounter)

/-- Increment the counter and test completion against the number of
member holders (inner.rs `_add_and_check_ack_finished`:
store(load+1); load ≥ port_holders.len()). -/
def _add_and_check_ack_finished (s : SerialPortInner) : SerialPortInner × Bool :=
  let s1 := { s with resCounter := s.resCounter + 1 }
  (s1, decide ((s1.portHolders.length : Int) ≤ s1.resCounter))

/-- Fan-out write (inner.rs `_write`): NotFound when the group is empty;
Busy when an aggregate wait is outstanding; otherwise reset the counter
to 0 and send `Write{data, need_ack}` to every member, returning the
data length on success and an IO error if any send failed. The result
carries the new state and the list of per-member sends attempted. -/
def _write (s : SerialPortInner) (data : List Nat) (need_ack : Bool) :
    Except WErr Nat × SerialPortInner × List (String × ToPortEvent) :=
  if s.portHolders.isEmpty then
    (.error .notFound, s, [])
  else if s._is_waiting_ack then
    (.error .busy, s, [])
  else
    let s1 := s._ack_reset
    let sends := s1.portHolders.map (fun p => (p.1, ToPortEvent.write data need_ack))
    if s1.portHolders.all (fun p => p.2.sendOk) then
      (.ok data.length, s1, sends)
    else
      (.error .ioError, s1, sends)

/-- Fire-and-forget write (inner.rs `write`): run `_write` with
`need_ack = false`, then set the counter idle regardless of the result. -/
def write (s : SerialPortInner) (data : List Nat) :
    Except WErr Nat × SerialPortInner × List (String × ToPortEvent) :=
  let r := s._write data false
  (r.1, r.2.1._ack_finished, r.2.2)

/-- Acknowledged write (inner.rs `write_need_ack`): `_write` with
`need_ack = true`. -/
def write_need_ack (s : SerialPortInner) (data : List Nat) :
    Except WErr Nat × SerialPortInner × List (String × ToPortEvent) :=
  s._write data true

/-- Ack-aggregation consumer (the body of inner.rs `_start_holder_event`):
on `Ack`, increment and, when finished, reset the counter to idle; every
other event (Timeout, Close, HeartbeatAck, HeartbeatTimeout) is only
logged and leaves the state unchanged. -/
def handleFromPortEvent (s : SerialPortInner) (e : FromPortEvent) : SerialPortInner :=
  match e with
  | .ack =>
    let r := s._add_and_check_ack_finished
    if r.2 then r.1._ack_finished else r.1
  | _ => s

/-- Apply `k` consecutive member `Ack` events to the group state. -/
def applyAcks (s : SerialPortInner) : Nat → SerialPortInner
  | 0 => s
  | k+1 => (s.applyAcks k).handleFromPortEvent .ack

/-- Add a member configuration (inner.rs `add_config`): remove any
existing holder for the same path, then insert the holder built from the
config. `h` stands for the freshly built `SerialPortHolder`. -/
def add_config (s : SerialPortInner) (config : SerialPortConfig) (h : HolderRef) :
    SerialPortInner :=
  { s with portHolders :=
      (s.portHolders.filter (fun p => p.1 ≠ config.path)) ++ [(config.path, h)] }

/-- Remove a member configuration by path (inner.rs `remove_config`). -/
def remove_config (s : SerialPortInner) (config : SerialPortConfig) : SerialPortInner :=
  { s with portHolders := s.portHolders.filter (fun p => p.1 ≠ config.path) }

end SerialPortInner

/-- Modelled from the spec for the refinement check of the aggregate
completion threshold: the count of members whose individual timeout is
nonzero, which §3 and §4.2 of the spec name as the threshold the
post-increment ack count is compared against. -/
def specNeedAckCount (s : SerialPortInner) : Nat :=
  (s.portHolders.filter (fun p => p.2.config.timeout ≠ 0)).length

/-- Number of entries of an association list carrying a given key. -/
def countKey (l : List (String × HolderRef)) (p : String) : Nat :=
  (l.filter (fun q => q.1 = p)).length

/-- Registry state (mod.rs, `SerialPortDevice`): the name → group map. -/
structure SerialPortDevice where
  inner_map : List (String × SerialPortInner)
deriving DecidableEq, Repr

namespace SerialPortDevice

/-- Registry write (mod.rs `SerialPortDevice::write`): look the name up;
absent names give NotFound, otherwise delegate to the group. -/
def write (d : SerialPortDevice) (name : String) (data : List Nat) :
    Except WErr Nat × SerialPortDevice :=
  match d.inner_map.lookup name with
  | none => (.error .notFound, d)
  | some inner =>
    let r := inner.write data
    let m := d.inner_map.map (fun q => if q.1 = name then (q.1, r.2.1) else q)
    (r.1, { inner_map := m })

/-- Registry acknowledged write (mod.rs `SerialPortDevice::write_need_ack`). -/
def write_need_ack (d : SerialPortDevice) (name : String) (data : List Nat) :
    Except WErr Nat × SerialPortDevice :=
  match d.inner_map.lookup name with
  | none => (.error .notFound, d)
  | some inner =>
    let r := inner.write_need_ack data
    let m := d.inner_map.map (fun q => if q.1 = name then (q.1, r.2.1) else q)
    (r.1, { inner_map := m })

end SerialPortDevice

/-- Observable actions of the reconnect loop `_start_open` (holder.rs):
an open attempt at iteration `i` with the configuration used and its
outcome, or a sleep of `ms` milliseconds at iteration `i`. -/
inductive OpenAct
  | attempt (i : Nat) (config : SerialPortConfig) (success : Bool)
  | sleepMs (i : Nat) (ms : Nat)
deriving DecidableEq, Repr

/-- Environment of one run of the reconnect loop: the stored
configuration, the value of the `is_stop` flag read at the top of
iteration `i`, whether an open attempt at iteration `i` would succeed,
and whether the read/write loop drops the shared handle during the sleep
of iteration `i`. -/
structure OpenEnv where
  config : SerialPortConfig
  is_stop : Nat → Bool
  openOk : Nat → Bool
  dropHandle : Nat → Bool

/-- Fuel-bounded trace of the reconnect loop (holder.rs `_start_open`):
each iteration first reads `is_stop` and exits when it is set; otherwise,
when no handle is held, it attempts to open the port with the stored
configuration (storing the handle on success), and in every case sleeps a
fixed 5 s before the next iteration. -/
def _start_open (env : OpenEnv) : Nat → Nat → Option Unit → List OpenAct
  | 0, _, _ => []
  | f+1, i, h =>
    if env.is_stop i then []
    else
      let body : List OpenAct × Option Unit :=
        match h with
        | none =>
          if env.openOk i then ([.attempt i env.config true], some ())
          else ([.attempt i env.config false], none)
        | some _ => ([], some ())
      let h1 := if env.dropHandle i then none else body.2
      body.1 ++ [.sleepMs i 5000] ++ _start_open env f (i+1) h1

/-- State of the read/write loop `_start_read_write` (holder.rs): the
`is_need_ack` and `is_heartbeat` flags, the shared optional handle, and
whether a heartbeat generator is configured. -/
structure RWState where
  is_need_ack : Bool
  is_heartbeat : Bool
  port : Option Unit
  hbConfigured : Bool
deriving DecidableEq, Repr

/-- One resolution of the four-way select of `_start_read_write`:
a read result (`none` is an I/O error, `some data` a successful read),
a command-channel receive (`none` means the channel closed; `writeOk`
is the outcome of the port write for a `Write` command), a heartbeat
timer firing (with the generated bytes and the port-write outcome), or
the ack race resolving (`notified = true`) or timing out. -/
inductive RWInput
  | read (r : Option (List Nat))
  | cmd (c : Option ToPortEvent) (writeOk : Bool)
  | hbFire (writeOk : Bool) (data : List Nat)
  | ackRace (notified : Bool)
deriving DecidableEq, Repr

/-- Observable outputs of the read/write loop: data or `Close` to the
downstream parser channel, a `FromPortEvent` on the upstream event
channel, an ack-notify, or bytes written to the port. -/
inductive RWOutput
  | parserData (data : List Nat)
  | parserClose
  | fromPort (e : FromPortEvent)
  | notifyOne
  | portWrite (data : List Nat)
deriving DecidableEq, Repr

/-- Body of the select of `_start_read_write` (holder.rs), entered with
the handle present: the guarded heartbeat and ack-race arms are no-ops
when their select guard (`heartbeat_command.is_some() & !is_need_ack`,
resp. `is_need_ack`) is false. Returns the new state, the emitted
outputs, and whether the loop continues. -/
def rwStep (s : RWState) : RWInput → RWState × List RWOutput × Bool
  | .read r =>
    match r with
    | some [] => (s, [], true)
    | some d => (s, [.parserData d], true)
    | none => ({ s with port := none }, [], true)
  | .cmd c writeOk =>
    match c with
    | some (.write d na) =>
      let s1 := { s with is_heartbeat := false }
      if writeOk then ({ s1 with is_need_ack := na }, [.portWrite d], true)
      else ({ s1 with port := none }, [], true)
    | some .ack => (s, [.notifyOne], true)
    | some .heartbeat => (s, [.notifyOne], true)
    | some .stop => (s, [], false)
    | none => (s, [], false)
  | .hbFire writeOk d =>
    if s.hbConfigured && !s.is_need_ack then
      if writeOk then
        ({ s with is_need_ack := true, is_heartbeat := true }, [.portWrite d], true)
      else
        ({ s with port := none }, [], true)
    else (s, [], true)
  | .ackRace notified =>
    if s.is_need_ack then
      if notified then
        ({ s with is_need_ack := false, is_heartbeat := false },
          [if s.is_heartbeat then .fromPort .heartbeatAck else .fromPort .ack], true)
      else
        ({ s with is_need_ack := false, is_heartbeat := false },
          [if s.is_heartbeat then .fromPort .heartbeatTimeout else .fromPort .timeout], true)
    else (s, [], true)

/-- One iteration of `_start_read_write`: exit when the `is_stop` flag is
set; when the handle is absent, sleep briefly and continue; otherwise run
the select body. -/
def rwIter (stopFlag : Bool) (s : RWState) (inp : RWInput) :
    RWState × List RWOutput × Bool :=
  if stopFlag then (s, [], false)
  else
    match s.port with
    | none => (s, [], true)
    | some _ => rwStep s inp

/-- Fuel-bounded run of `_start_read_write` from iteration `i`: the
output trace and whether the loop exited within the fuel. On exit (any
path) the loop sends `Close` upstream and `Close` to the parser, in that
order, and returns. -/
def rwRun (stopF : Nat → Bool) (inp : Nat → RWInput) :
    Nat → Nat → RWState → List RWOutput × Bool
  | 0, _, _ => ([], false)
  | f+1, i, s =>
    let r := rwIter (stopF i) s (inp i)
    if r.2.2 then
      let rest := rwRun stopF inp f (i+1) r.1
      (r.2.1 ++ rest.1, rest.2)
    else
      (r.2.1 ++ [.fromPort .close, .parserClose], true)

/-! Concrete sample states used by witnesses and counterexamples. -/

/-- Sample configuration with a nonzero (1 s) timeout. -/
def cfgA : SerialPortConfig :=
  { path := "/dev/ttyUSB0", baud_rate := 9600, data_bits := .eight,
    flow_control := .fnone, parity := .pnone, stop_bits := .one, timeout := 1000 }

/-- Sample configuration with a zero timeout on a second path. -/
def cfgB : SerialPortConfig :=
  { cfgA with path := "/dev/ttyUSB1", timeout := 0 }

/-- Holder for `cfgA` whose command channel accepts sends. -/
def holderA : HolderRef := { config := cfgA, sendOk := true }

/-- Holder for `cfgA` whose command channel rejects sends. -/
def holderBadA : HolderRef := { config := cfgA, sendOk := false }

/-- Idle one-member group. -/
def sOne : SerialPortInner :=
  { portHolders := [("/dev/ttyUSB0", holderA)], resCounter := -1 }

/-- Idle one-member group whose member rejects sends. -/
def sBad : SerialPortInner :=
  { portHolders := [("/dev/ttyUSB0", holderBadA)], resCounter := -1 }

/-- Idle two-member group: one member with a 1 s timeout, one with a
zero timeout. -/
def sTwo : SerialPortInner :=
  { portHolders := [("/dev/ttyUSB0", holderA),
                    ("/dev/ttyUSB1", { config := cfgB, sendOk := true })],
    resCounter := -1 }

/-! Helper lemmas. -/

theorem handleFromPortEvent_portHolders (s : SerialPortInner) (e : FromPortEvent) :
    (s.handleFromPortEvent e).portHolders = s.portHolders := by
  cases e <;>
    simp only [SerialPortInner.handleFromPortEvent,
      SerialPortInner._add_and_check_ack_finished, SerialPortInner._ack_finished] <;>
    split <;> rfl

theorem applyAcks_portHolders (s : SerialPortInner) (k : Nat) :
    (s.applyAcks k).portHolders = s.portHolders := by
  induction k with
  | zero => rfl
  | succ k ih =>
    rw [SerialPortInner.applyAcks, handleFromPortEvent_portHolders, ih]

theorem handleAck_of_lt (s : SerialPortInner)
    (h : s.resCounter + 1 < (s.portHolders.length : Int)) :
    s.handleFromPortEvent .ack = { s with resCounter := s.resCounter + 1 } := by
  simp only [SerialPortInner.handleFromPortEvent,
    SerialPortInner._add_and_check_ack_finished, SerialPortInner._ack_finished]
  rw [if_neg]
  simp only [decide_eq_true_eq, not_le]
  exact h

theorem handleAck_of_ge (s : SerialPortInner)
    (h : (s.portHolders.length : Int) ≤ s.resCounter + 1) :
    s.handleFromPortEvent .ack = { s with resCounter := -1 } := by
  simp only [SerialPortInner.handleFromPortEvent,
    SerialPortInner._add_and_check_ack_finished, SerialPortInner._ack_finished]
  rw [if_pos]
  simpa using h

theorem applyAcks_resCounter_of_lt (s : SerialPortInner) (hc : s.resCounter = 0) :
    ∀ k, k < s.portHolders.length → (s.applyAcks k).resCounter = (k : Int) := by
  intro k
  induction k with
  | zero => intro _; simpa [SerialPortInner.applyAcks] using hc
  | succ k ih =>
    intro hk
    have hk1 : k < s.portHolders.length := Nat.lt_of_succ_lt hk
    have hcount := ih hk1
    rw [SerialPortInner.applyAcks, handleAck_of_lt]
    · simp [hcount]
    · rw [hcount, applyAcks_portHolders]
      omega

theorem applyAcks_resCounter_full (s : SerialPortInner) (hc : s.resCounter = 0)
    (h1 : 1 ≤ s.portHolders.length) :
    (s.applyAcks s.portHolders.length).resCounter = -1 := by
  obtain ⟨M, hM⟩ := Nat.exists_eq_add_of_le h1
  have hM1 : s.portHolders.length = M + 1 := by omega
  rw [hM1, SerialPortInner.applyAcks, handleAck_of_ge]
  · rw [applyAcks_portHolders, hM1,
      applyAcks_resCounter_of_lt s hc M (by omega)]
    push_cast
    omega

/-! Fan-out writes from an idle state. -/

theorem write_need_ack_state (s : SerialPortInner) (data : List Nat)
    (hne : s.portHolders ≠ []) (hidle : s.resCounter < 0) :
    (s.write_need_ack data).2.1 = { s with resCounter := 0 } := by
  have hw : s._is_waiting_ack = false := by
    simp [SerialPortInner._is_waiting_ack]
    omega
  simp only [SerialPortInner.write_need_ack, SerialPortInner._write, hw,
    SerialPortInner._ack_reset]
  rw [if_neg (by simpa [List.isEmpty_iff] using hne)]
  simp only [Bool.false_eq_true, if_false]
  split <;> rfl

theorem write_need_ack_result (s : SerialPortInner) (data : List Nat)
    (hne : s.portHolders ≠ []) (hidle : s.resCounter < 0) :
    (s.write_need_ack data).1 =
      (if s.portHolders.all (fun p => p.2.sendOk) then .ok data.length
       else .error .ioError) := by
  have hw : s._is_waiting_ack = false := by
    simp [SerialPortInner._is_waiting_ack]
    omega
  simp only [SerialPortInner.write_need_ack, SerialPortInner._write, hw,
    SerialPortInner._ack_reset]
  rw [if_neg (by simpa [List.isEmpty_iff] using hne)]
  simp only [Bool.false_eq_true, if_false]
  split <;> rfl

theorem write_need_ack_busy (s : SerialPortInner) (data : List Nat)
    (hne : s.portHolders ≠ []) (hbusy : 0 ≤ s.resCounter) :
    (s.write_need_ack data).1 = .error .busy := by
  have hw : s._is_waiting_ack = true := by
    simpa [SerialPortInner._is_waiting_ack] using hbusy
  simp only [SerialPortInner.write_need_ack, SerialPortInner._write, hw]
  rw [if_neg (by simpa [List.isEmpty_iff] using hne)]
  rfl

theorem write_busy (s : SerialPortInner) (data : List Nat)
    (hne : s.portHolders ≠ []) (hbusy : 0 ≤ s.resCounter) :
    (s.write data).1 = .error .busy := by
  have hw : s._is_waiting_ack = true := by
    simpa [SerialPortInner._is_waiting_ack] using hbusy
  simp only [SerialPortInner.write, SerialPortInner._write, hw]
  rw [if_neg (by simpa [List.isEmpty_iff] using hne)]
  rfl

theorem write_resCounter (s : SerialPortInner) (data : List Nat) :
    (s.write data).2.1.resCounter = -1 := rfl

/-- Claim C3: for every call to `write_need_ack` on a non-empty group, the
call returns Busy if and only if the aggregate counter is not idle (≠ -1)
at the time of the call; otherwise it resets the counter to 0, sends
`Write{need_ack := true}` to every member, and returns Ok (with the data
length) exactly when all fan-out sends succeed. The hypothesis
`-1 ≤ resCounter` is the counter's reachable range (stores are -1, 0, or
an increment of a value ≥ -1). -/
theorem c3_write_need_ack_busy_iff (s : SerialPortInner) (data : List Nat)
    (hne : s.portHolders ≠ []) (hinv : -1 ≤ s.resCounter) :
    ((s.write_need_ack data).1 = .error .busy ↔ s.resCounter ≠ -1) ∧
    (s.resCounter = -1 →
      (s.write_need_ack data).2.1.resCounter = 0 ∧
      (s.write_need_ack data).2.2 =
        s.portHolders.map (fun p => (p.1, ToPortEvent.write data true)) ∧
      ((s.write_need_ack data).1 = .ok data.length ↔
        s.portHolders.all (fun p => p.2.sendOk) = true)) := by
  by_cases hw : 0 ≤ s.resCounter
  · have hres := write_need_ack_busy s data hne hw
    constructor
    · rw [hres]
      simp only [true_iff]
      omega
    · intro h
      omega
  · have hlt : s.resCounter < 0 := by omega
    have heq : s.resCounter = -1 := by omega
    have hst := write_need_ack_state s data hne hlt
    have hres := write_need_ack_result s data hne hlt
    refine ⟨?_, fun _ => ⟨by rw [hst], ?_, ?_⟩⟩
    · rw [hres]
      constructor
      · intro h
        split at h <;> simp_all
      · intro h
        exact absurd heq h
    · have hwb : s._is_waiting_ack = false := by
        simp [SerialPortInner._is_waiting_ack]
        omega
      simp only [SerialPortInner.write_need_ack, SerialPortInner._write, hwb,
        SerialPortInner._ack_reset]
      rw [if_neg (by simpa [List.isEmpty_iff] using hne)]
      simp only [Bool.false_eq_true, if_false]
      split <;> rfl
    · rw [hres]
      split <;> rename_i hall
      · simpa using hall
      · simpa using hall

/-- Witness for C3 at a concrete idle one-member group. -/
theorem c3_witness :
    sOne.portHolders ≠ [] ∧ (-1 : Int) ≤ sOne.resCounter ∧
    ((sOne.write_need_ack [1, 2]).1 = .error .busy ↔ sOne.resCounter ≠ -1) := by
  refine ⟨by decide, by decide, ?_⟩
  exact (c3_write_need_ack_busy_iff sOne [1, 2] (by decide) (by decide)).1

/-- Claim C4 as amended: the fire-and-forget `write` on a non-empty group
returns Busy when an aggregate ack wait is outstanding at the call (the
busy check is shared with `write_need_ack`); when no wait is outstanding
it fans out `Write{need_ack := false}` to every member and succeeds
exactly when all sends succeed; in every case the aggregate counter is
set idle (-1) immediately upon return, with no waiting. -/
theorem c4_write_fire_and_forget (s : SerialPortInner) (data : List Nat)
    (hne : s.portHolders ≠ []) :
    (0 ≤ s.resCounter → (s.write data).1 = .error .busy) ∧
    (s.resCounter < 0 →
      ((s.write data).1 = .ok data.length ↔
        s.portHolders.all (fun p => p.2.sendOk) = true) ∧
      (s.write data).2.2 =
        s.portHolders.map (fun p => (p.1, ToPortEvent.write data false))) ∧
    (s.write data).2.1.resCounter = -1 := by
  refine ⟨fun hb => write_busy s data hne hb, ?_, write_resCounter s data⟩
  · intro hlt
    have hwb : s._is_waiting_ack = false := by
      simp [SerialPortInner._is_waiting_ack]
      omega
    simp only [SerialPortInner.write, SerialPortInner._write, hwb,
      SerialPortInner._ack_reset]
    rw [if_neg (by simpa [List.isEmpty_iff] using hne)]
    simp only [Bool.false_eq_true, if_false]
    constructor
    · split <;> rename_i hall
      · simpa using hall
      · simpa using hall
    · split <;> rfl

/-- One-member group with an outstanding aggregate ack wait (counter 0). -/
def sOneBusy : SerialPortInner :=
  { portHolders := sOne.portHolders, resCounter := 0 }

/-- Counterexample to C4 as stated: on a one-member group with an
outstanding ack wait (counter 0), the fire-and-forget `write` does not
succeed — it returns Busy. -/
theorem c4_counterexample :
    sOneBusy.portHolders ≠ [] ∧ (sOneBusy.write [1]).1 = .error .busy := by
  decide

/-- Witness for C4 (amended) at a concrete busy one-member group. -/
theorem c4_witness :
    (0 : Int) ≤ sOneBusy.resCounter ∧
    (sOneBusy.write [1]).1 = .error .busy ∧
    (sOneBusy.write [1]).2.1.resCounter = -1 := by
  have h := c4_write_fire_and_forget sOneBusy [1] (by decide)
  exact ⟨by decide, h.1 (by decide), h.2.2⟩

/-! Lemmas on keyed entry counts for add/replace semantics. -/

theorem countKey_filter_ne (l : List (String × HolderRef)) (p : String) :
    countKey (l.filter (fun q => q.1 ≠ p)) p = 0 := by
  induction l with
  | nil => rfl
  | cons x xs ih =>
    by_cases hx : x.1 = p
    · simpa [countKey, List.filter, hx] using ih
    · simpa [countKey, List.filter, hx] using ih

theorem countKey_append (a b : List (String × HolderRef)) (p : String) :
    countKey (a ++ b) p = countKey a p + countKey b p := by
  simp [countKey, List.filter_append]

theorem countKey_add_config (s : SerialPortInner) (c : SerialPortConfig)
    (h : HolderRef) :
    countKey (s.add_config c h).portHolders c.path = 1 := by
  simp only [SerialPortInner.add_config, countKey_append, countKey_filter_ne]
  simp [countKey, List.filter]

/-- Claim C5: after two `add_config` calls with the same path on the same
group, exactly one holder exists for that path; the second call removes
the existing holder for that key before inserting the new one (the state
between the remove and the insert has zero holders for the key), so two
holders for the same key never coexist. -/
theorem c5_add_config_replaces (s : SerialPortInner) (c : SerialPortConfig)
    (h1 h2 : HolderRef) :
    countKey ((s.add_config c h1).add_config c h2).portHolders c.path = 1 ∧
    countKey
      ((s.add_config c h1).portHolders.filter (fun q => q.1 ≠ c.path)) c.path = 0 ∧
    countKey (s.add_config c h1).portHolders c.path = 1 :=
  ⟨countKey_add_config _ c h2, countKey_filter_ne _ c.path,
    countKey_add_config s c h1⟩

/-- Claim C9: for every registry `write` or `write_need_ack` call, absence
is a typed error: a logical name with no registry entry yields NotFound
synchronously, and a named group with zero member ports also yields the
NotFound (empty-group) error — never a silent success. -/
theorem c9_absence_typed_error (d : SerialPortDevice) (name : String)
    (data : List Nat) :
    (d.inner_map.lookup name = none →
      (d.write name data).1 = .error .notFound ∧
      (d.write_need_ack name data).1 = .error .notFound) ∧
    (∀ inner, d.inner_map.lookup name = some inner → inner.portHolders = [] →
      (d.write name data).1 = .error .notFound ∧
      (d.write_need_ack name data).1 = .error .notFound) := by
  constructor
  · intro h
    constructor
    · simp [SerialPortDevice.write, h]
    · simp [SerialPortDevice.write_need_ack, h]
  · intro inner h hempty
    have he : inner.portHolders.isEmpty = true := by
      simp [List.isEmpty_iff, hempty]
    constructor
    · simp [SerialPortDevice.write, h, SerialPortInner.write,
        SerialPortInner._write, he]
    · simp [SerialPortDevice.write_need_ack, h, SerialPortInner.write_need_ack,
        SerialPortInner._write, he]

/-- Registry with one empty group under the name "plc". -/
def devEmptyGroup : SerialPortDevice :=
  { inner_map := [("plc", { portHolders := [], resCounter := -1 })] }

/-- Witness for C9: an unknown name and an empty group both yield the
typed NotFound error. -/
theorem c9_witness :
    devEmptyGroup.inner_map.lookup "unknown" = none ∧
    (devEmptyGroup.write "unknown" [1]).1 = .error .notFound ∧
    (devEmptyGroup.write_need_ack "plc" [1]).1 = .error .notFound := by
  refine ⟨by decide, (c9_absence_typed_error devEmptyGroup "unknown" [1]).1 (by decide) |>.1, ?_⟩
  exact ((c9_absence_typed_error devEmptyGroup "plc" [1]).2
    { portHolders := [], resCounter := -1 } (by decide) (by decide)).2

/-- Claim C10 as amended: when a fan-out send fails after the counter was
reset to 0, `write_need_ack` returns the IO error and leaves the counter
at 0 (waiting) rather than restoring it to -1, so the next
`write_need_ack` and the next `write` on that group return Busy; however
a plain `write` sets the counter back to idle (-1) upon returning, so
the Busy state persists only across `write_need_ack` calls and does not
survive a `write` call. -/
theorem c10_failed_fanout_leaves_waiting (s : SerialPortInner)
    (data data2 : List Nat) (hidle : s.resCounter = -1)
    (hne : s.portHolders ≠ [])
    (hbad : s.portHolders.all (fun p => p.2.sendOk) = false) :
    (s.write_need_ack data).1 = .error .ioError ∧
    (s.write_need_ack data).2.1.resCounter = 0 ∧
    ((s.write_need_ack data).2.1.write_need_ack data2).1 = .error .busy ∧
    ((s.write_need_ack data).2.1.write data2).1 = .error .busy ∧
    ((s.write_need_ack data).2.1.write data2).2.1.resCounter = -1 := by
  have hlt : s.resCounter < 0 := by omega
  have hst := write_need_ack_state s data hne hlt
  have hres := write_need_ack_result s data hne hlt
  have hne1 : (s.write_need_ack data).2.1.portHolders ≠ [] := by
    rw [hst]
    exact hne
  have hc1 : (s.write_need_ack data).2.1.resCounter = 0 := by rw [hst]
  refine ⟨?_, hc1, ?_, ?_, ?_⟩
  · rw [hres, if_neg (by simp [hbad])]
  · exact write_need_ack_busy _ data2 hne1 (by omega)
  · exact write_busy _ data2 hne1 (by omega)
  · exact write_resCounter _ data2

/-- Counterexample to C10 as stated: the claim says that after a failed
fan-out every subsequent `write` and `write_need_ack` returns Busy until
enough Ack events arrive; but with no Ack event at all, the second
subsequent `write` is not rejected as Busy, because the first `write`
reset the counter to idle on its way out. -/
theorem c10_counterexample :
    (sBad.write_need_ack [1]).1 = .error .ioError ∧
    (sBad.write_need_ack [1]).2.1.resCounter = 0 ∧
    ((sBad.write_need_ack [1]).2.1.write [2]).1 = .error .busy ∧
    (((sBad.write_need_ack [1]).2.1.write [2]).2.1.write [3]).1 ≠ .error .busy := by
  decide

/-- Witness for C10 (amended) at a concrete one-member group whose member
rejects sends. -/
theorem c10_witness :
    sBad.resCounter = -1 ∧
    (sBad.write_need_ack [1]).1 = .error .ioError ∧
    ((sBad.write_need_ack [1]).2.1.write_need_ack [2]).1 = .error .busy ∧
    ((sBad.write_need_ack [1]).2.1.write [2]).2.1.resCounter = -1 := by
  have h := c10_failed_fanout_leaves_waiting sBad [1] [2]
    (by decide) (by decide) (by decide)
  exact ⟨by decide, h.1, h.2.2.1, h.2.2.2.2⟩

/-! Claim C1: aggregate completion threshold. -/

/-- Claim C1 as amended: after a `write_need_ack` fan-out on a group with
N ≥ 1 members, each member `Ack` event increments the group counter, and
the aggregate request becomes finished (counter reset to -1, unblocking
the busy check) exactly when the post-increment count reaches the total
number of members of the group (`port_holders.len()`, regardless of the
members' individual timeouts) — never before that count, and the reset
does not refire on the next Ack. -/
theorem c1_ack_threshold (s0 : SerialPortInner) (data : List Nat) (N : Nat)
    (hN : s0.portHolders.length = N) (h1 : 1 ≤ N)
    (hidle : s0.resCounter = -1) :
    (∀ k, k < N →
      ((s0.write_need_ack data).2.1.applyAcks k).resCounter = (k : Int) ∧
      ((s0.write_need_ack data).2.1.applyAcks k).resCounter ≠ -1) ∧
    ((s0.write_need_ack data).2.1.applyAcks N).resCounter = -1 ∧
    ((s0.write_need_ack data).2.1.applyAcks (N + 1)).resCounter ≠ -1 := by
  have hne : s0.portHolders ≠ [] := by
    intro h
    rw [h] at hN
    simp at hN
    omega
  have hst := write_need_ack_state s0 data hne (by omega)
  have hport : (s0.write_need_ack data).2.1.portHolders = s0.portHolders := by
    rw [hst]
  have hc : (s0.write_need_ack data).2.1.resCounter = 0 := by rw [hst]
  have hlen : (s0.write_need_ack data).2.1.portHolders.length = N := by
    rw [hport, hN]
  refine ⟨?_, ?_, ?_⟩
  · intro k hk
    have := applyAcks_resCounter_of_lt _ hc k (by rw [hlen]; exact hk)
    refine ⟨this, ?_⟩
    rw [this]
    omega
  · have := applyAcks_resCounter_full _ hc (by rw [hlen]; omega)
    rwa [hlen] at this
  · have hfull := applyAcks_resCounter_full _ hc (by rw [hlen]; omega)
    rw [hlen] at hfull
    have hport2 : ((s0.write_need_ack data).2.1.applyAcks N).portHolders.length = N := by
      rw [applyAcks_portHolders, hlen]
    rw [SerialPortInner.applyAcks, handleAck_of_lt]
    · rw [hfull]
      simp
    · rw [hfull, hport2]
      omega

/-- Counterexample to C1 as stated: in a two-member group where exactly
one member has a nonzero timeout, the spec threshold (count of members
with nonzero timeout) is 1, yet after `write_need_ack` and one member
Ack the post-increment count is 1 and the aggregate is not finished:
the counter holds 1, not -1, because the code compares against the total
member count (2). -/
theorem c1_counterexample :
    specNeedAckCount (sTwo.write_need_ack [0xAA]).2.1 = 1 ∧
    ((sTwo.write_need_ack [0xAA]).2.1.applyAcks 1).resCounter = 1 ∧
    ((sTwo.write_need_ack [0xAA]).2.1.applyAcks 1).resCounter ≠ -1 := by
  decide

/-- Witness for C1 (amended) on a concrete two-member group: completion
fires exactly at the second Ack. -/
theorem c1_witness :
    sTwo.portHolders.length = 2 ∧
    ((sTwo.write_need_ack [0xAA]).2.1.applyAcks 1).resCounter ≠ -1 ∧
    ((sTwo.write_need_ack [0xAA]).2.1.applyAcks 2).resCounter = -1 ∧
    ((sTwo.write_need_ack [0xAA]).2.1.applyAcks 3).resCounter ≠ -1 := by
  have h := c1_ack_threshold sTwo [0xAA] 2 (by decide) (by omega) (by decide)
  exact ⟨by decide, (h.1 1 (by omega)).2, h.2.1, h.2.2⟩

/-! Claim C2: busy rejection and what resolves it. -/

/-- Claim C2 as amended: a second `write_need_ack` issued while the first
is unresolved returns Busy; the first request resolves once the member
Ack events reach the member count (resetting the counter to idle), after
which a new `write_need_ack` succeeds; a `Timeout` event from the Link
level, however, is only logged and leaves the group counter unchanged,
so a `write_need_ack` issued after a Timeout is still rejected as Busy. -/
theorem c2_busy_until_acks (s : SerialPortInner) (data data2 : List Nat)
    (hidle : s.resCounter = -1) (hne : s.portHolders ≠ [])
    (hok : s.portHolders.all (fun p => p.2.sendOk) = true) :
    (s.write_need_ack data).1 = .ok data.length ∧
    ((s.write_need_ack data).2.1.write_need_ack data2).1 = .error .busy ∧
    (s.write_need_ack data).2.1.handleFromPortEvent .timeout =
      (s.write_need_ack data).2.1 ∧
    ((s.write_need_ack data).2.1.handleFromPortEvent .timeout).resCounter = 0 ∧
    (((s.write_need_ack data).2.1.applyAcks s.portHolders.length).write_need_ack
      data2).1 = .ok data2.length := by
  have hlt : s.resCounter < 0 := by omega
  have hst := write_need_ack_state s data hne hlt
  have hres := write_need_ack_result s data hne hlt
  have hc : (s.write_need_ack data).2.1.resCounter = 0 := by rw [hst]
  have hport : (s.write_need_ack data).2.1.portHolders = s.portHolders := by
    rw [hst]
  have hne1 : (s.write_need_ack data).2.1.portHolders ≠ [] := by
    rw [hport]; exact hne
  have h1 : 1 ≤ s.portHolders.length := by
    cases hl : s.portHolders with
    | nil => exact absurd hl hne
    | cons a l => simp [hl]
  refine ⟨?_, ?_, ?_, ?_, ?_⟩
  · rw [hres, if_pos hok]
  · exact write_need_ack_busy _ data2 hne1 (by omega)
  · simp [SerialPortInner.handleFromPortEvent]
  · simp [SerialPortInner.handleFromPortEvent, hc]
  · have hfull := applyAcks_resCounter_full ((s.write_need_ack data).2.1) hc
      (by rw [hport]; omega)
    rw [hport] at hfull
    have hportk : ((s.write_need_ack data).2.1.applyAcks
        s.portHolders.length).portHolders = s.portHolders := by
      rw [applyAcks_portHolders, hport]
    have hnek : ((s.write_need_ack data).2.1.applyAcks
        s.portHolders.length).portHolders ≠ [] := by
      rw [hportk]; exact hne
    have hresk := write_need_ack_result _ data2 hnek (by rw [hfull]; omega)
    rw [hresk, if_pos (by rw [hportk]; exact hok)]

/-- Counterexample to C2 as stated: on a one-member group, after
`write_need_ack` and a Link-level `Timeout` event (which clears the
Link's own wait state), the subsequent `write_need_ack` is still
rejected as Busy — the Timeout did not reset the group counter. -/
theorem c2_counterexample :
    (sOne.write_need_ack [0xAA]).1 = .ok 1 ∧
    ((sOne.write_need_ack [0xAA]).2.1.handleFromPortEvent .timeout).resCounter = 0 ∧
    (((sOne.write_need_ack [0xAA]).2.1.handleFromPortEvent
      .timeout).write_need_ack [0xBB]).1 = .error .busy := by
  decide

/-- Witness for C2 (amended) on a concrete one-member group. -/
theorem c2_witness :
    (sOne.write_need_ack [5]).1 = .ok 1 ∧
    ((sOne.write_need_ack [5]).2.1.write_need_ack [6]).1 = .error .busy ∧
    (((sOne.write_need_ack [5]).2.1.applyAcks 1).write_need_ack [6]).1 = .ok 1 := by
  have h := c2_busy_until_acks sOne [5] [6] (by decide) (by decide) (by decide)
  exact ⟨h.1, h.2.1, h.2.2.2.2⟩

/-! Claim C6: the reconnect loop. -/

theorem start_open_zero (env : OpenEnv) (i : Nat) (h : Option Unit) :
    _start_open env 0 i h = [] := rfl

theorem start_open_succ (env : OpenEnv) (f i : Nat) (h : Option Unit) :
    _start_open env (f+1) i h =
      if env.is_stop i then []
      else
        let body : List OpenAct × Option Unit :=
          match h with
          | none =>
            if env.openOk i then ([.attempt i env.config true], some ())
            else ([.attempt i env.config false], none)
          | some _ => ([], some ())
        let h1 := if env.dropHandle i then none else body.2
        body.1 ++ [.sleepMs i 5000] ++ _start_open env f (i+1) h1 := rfl

theorem start_open_succ_none (env : OpenEnv) (f i : Nat)
    (hs : env.is_stop i = false) :
    ∃ h1, _start_open env (f+1) i none =
      OpenAct.attempt i env.config (env.openOk i) ::
        OpenAct.sleepMs i 5000 :: _start_open env f (i+1) h1 := by
  rw [start_open_succ, if_neg (by simp [hs])]
  cases ho : env.openOk i
  · exact ⟨if env.dropHandle i then none else none, by simp [ho]⟩
  · exact ⟨if env.dropHandle i then none else some (), by simp [ho]⟩

theorem start_open_succ_some (env : OpenEnv) (f i : Nat)
    (hs : env.is_stop i = false) :
    ∃ h1, _start_open env (f+1) i (some ()) =
      OpenAct.sleepMs i 5000 :: _start_open env f (i+1) h1 :=
  ⟨if env.dropHandle i then none else some (),
    by rw [start_open_succ, if_neg (by simp [hs])]; rfl⟩

theorem start_open_mem_attempt (env : OpenEnv) :
    ∀ f i h j c b, OpenAct.attempt j c b ∈ _start_open env f i h →
      c = env.config ∧ env.is_stop j = false ∧
      OpenAct.sleepMs j 5000 ∈ _start_open env f i h := by
  intro f
  induction f with
  | zero =>
    intro i h j c b hm
    simp [start_open_zero] at hm
  | succ f ih =>
    intro i h j c b hm
    by_cases hs : env.is_stop i = true
    · rw [start_open_succ, if_pos hs] at hm
      simp at hm
    · have hs1 : env.is_stop i = false := by simpa using hs
      cases h with
      | some u =>
        cases u
        obtain ⟨h1, hsh⟩ := start_open_succ_some env f i hs1
        rw [hsh] at hm ⊢
        simp only [List.mem_cons] at hm ⊢
        rcases hm with hm | hm
        · cases hm
        · have := ih _ _ _ _ _ hm
          exact ⟨this.1, this.2.1, Or.inr this.2.2⟩
      | none =>
        obtain ⟨h1, hsh⟩ := start_open_succ_none env f i hs1
        rw [hsh] at hm ⊢
        simp only [List.mem_cons] at hm ⊢
        rcases hm with hm | hm | hm
        · cases hm
          exact ⟨rfl, hs1, Or.inr (Or.inl rfl)⟩
        · cases hm
        · have := ih _ _ _ _ _ hm
          exact ⟨this.1, this.2.1, Or.inr (Or.inr this.2.2)⟩

theorem start_open_mem_sleep (env : OpenEnv) :
    ∀ f i h j ms, OpenAct.sleepMs j ms ∈ _start_open env f i h → ms = 5000 := by
  intro f
  induction f with
  | zero =>
    intro i h j ms hm
    simp [start_open_zero] at hm
  | succ f ih =>
    intro i h j ms hm
    by_cases hs : env.is_stop i = true
    · rw [start_open_succ, if_pos hs] at hm
      simp at hm
    · have hs1 : env.is_stop i = false := by simpa using hs
      cases h with
      | some u =>
        cases u
        obtain ⟨h1, hsh⟩ := start_open_succ_some env f i hs1
        rw [hsh] at hm
        simp only [List.mem_cons] at hm
        rcases hm with hm | hm
        · cases hm
          rfl
        · exact ih _ _ _ _ hm
      | none =>
        obtain ⟨h1, hsh⟩ := start_open_succ_none env f i hs1
        rw [hsh] at hm
        simp only [List.mem_cons] at hm
        rcases hm with hm | hm | hm
        · cases hm
        · cases hm
          rfl
        · exact ih _ _ _ _ hm

/-- Claim C6: the reconnect loop, while the stop flag is false and no
handle is held, attempts to open the port with the stored configuration
and sleeps a fixed 5 s between iterations regardless of the attempt's
outcome; every open attempt in a trace happens with the stop flag unread
as true (so once the monotone stop flag is observed true, no attempt
occurs at that iteration or later, the loop having exited). -/
theorem c6_reconnect_loop (env : OpenEnv) (f i : Nat) (h : Option Unit) :
    (∀ j c b, OpenAct.attempt j c b ∈ _start_open env f i h →
      c = env.config ∧ env.is_stop j = false ∧
      OpenAct.sleepMs j 5000 ∈ _start_open env f i h) ∧
    (∀ j ms, OpenAct.sleepMs j ms ∈ _start_open env f i h → ms = 5000) ∧
    (h = none → env.is_stop i = false → 0 < f →
      OpenAct.attempt i env.config (env.openOk i) ∈ _start_open env f i h) ∧
    ((∀ a b, a ≤ b → env.is_stop a = true → env.is_stop b = true) →
      ∀ k, env.is_stop k = true → ∀ j c b, k ≤ j →
        OpenAct.attempt j c b ∉ _start_open env f i h) := by
  refine ⟨start_open_mem_attempt env f i h, start_open_mem_sleep env f i h,
    ?_, ?_⟩
  · intro hh hstop hf
    subst hh
    cases f with
    | zero => omega
    | succ f =>
      rw [start_open_succ, if_neg (by simp [hstop])]
      by_cases ho : env.openOk i = true
      · simp [ho]
      · simp [ho]
  · intro hmono k hk j c b hkj hm
    have h1 := (start_open_mem_attempt env f i h j c b hm).2.1
    have h2 := hmono k j hkj hk
    rw [h1] at h2
    cases h2

/-- Environment in which the stop flag turns on at iteration 2 and every
open attempt fails. -/
def envW : OpenEnv :=
  { config := cfgA, is_stop := fun i => decide (2 ≤ i),
    openOk := fun _ => false, dropHandle := fun _ => false }

/-- Witness for C6: in a concrete environment, the first iteration with
no handle attempts an open with the stored configuration, every sleep in
the trace is 5000 ms, and no attempt occurs at iteration 2 or later. -/
theorem c6_witness :
    OpenAct.attempt 0 envW.config (envW.openOk 0) ∈ _start_open envW 2 0 none ∧
    (OpenAct.sleepMs 0 5000 ∈ _start_open envW 2 0 none → (5000 : Nat) = 5000) ∧
    OpenAct.attempt 3 envW.config true ∉ _start_open envW 2 0 none := by
  have h := c6_reconnect_loop envW 2 0 none
  refine ⟨h.2.2.1 rfl (by decide) (by omega), fun hm => h.2.1 0 5000 hm, ?_⟩
  exact h.2.2.2 (fun a b hab ha => by
    simp only [envW] at ha ⊢
    simp only [decide_eq_true_eq] at ha ⊢
    omega) 2 (by decide) 3 envW.config true (by omega)

/-! Claim C7: heartbeat gating and heartbeat timeout. -/

/-- Claim C7: in the read/write loop, the heartbeat timer arm is a no-op
unless a heartbeat generator is configured and no ack wait is outstanding
(the select guard); when it fires and the port write succeeds, the
generated bytes are written and the wait state is set with the heartbeat
flag; when that wait times out, the loop emits `HeartbeatTimeout` and
clears the wait state, after which a subsequent application `Write`
command is processed and its bytes written immediately. -/
theorem c7_heartbeat_gating (s : RWState) (d d2 : List Nat) (ok na : Bool)
    (hport : s.port = some ()) :
    (¬ (s.hbConfigured = true ∧ s.is_need_ack = false) →
      rwIter false s (.hbFire ok d) = (s, [], true)) ∧
    (s.hbConfigured = true → s.is_need_ack = false →
      rwIter false s (.hbFire true d) =
        ({ s with is_need_ack := true, is_heartbeat := true },
          [.portWrite d], true)) ∧
    (s.is_need_ack = true → s.is_heartbeat = true →
      rwIter false s (.ackRace false) =
        ({ s with is_need_ack := false, is_heartbeat := false },
          [.fromPort .heartbeatTimeout], true)) ∧
    (rwIter false { s with is_need_ack := false, is_heartbeat := false }
        (.cmd (some (.write d2 na)) true) =
      ({ s with is_need_ack := na, is_heartbeat := false },
        [.portWrite d2], true)) := by
  refine ⟨?_, ?_, ?_, ?_⟩
  · intro hng
    have hb : (s.hbConfigured && !s.is_need_ack) = false := by
      cases hcfg : s.hbConfigured <;> cases hna : s.is_need_ack <;> simp_all
    simp [rwIter, rwStep, hport, hb]
  · intro h1 h2
    simp [rwIter, rwStep, hport, h1, h2]
  · intro h1 h2
    simp [rwIter, rwStep, hport, h1, h2]
  · simp [rwIter, rwStep, hport]

/-- Idle connected loop state with a heartbeat generator configured. -/
def rwIdle : RWState :=
  { is_need_ack := false, is_heartbeat := false, port := some (),
    hbConfigured := true }

/-- Witness for C7 at a concrete idle connected state: the heartbeat
fires and writes its bytes, the timed-out wait emits HeartbeatTimeout,
and a write command afterwards goes through. -/
theorem c7_witness :
    rwIdle.port = some () ∧
    rwIter false rwIdle (.hbFire true [9]) =
      ({ rwIdle with is_need_ack := true, is_heartbeat := true },
        [.portWrite [9]], true) ∧
    rwIter false { rwIdle with is_need_ack := true, is_heartbeat := true }
        (.ackRace false) =
      ({ rwIdle with is_need_ack := false, is_heartbeat := false },
        [.fromPort .heartbeatTimeout], true) := by
  have h1 := c7_heartbeat_gating rwIdle [9] [7] true false rfl
  have h2 := c7_heartbeat_gating
    ({ rwIdle with is_need_ack := true, is_heartbeat := true }) [9] [7] true false rfl
  exact ⟨rfl, h1.2.1 rfl rfl, h2.2.2.1 rfl rfl⟩

/-! Claim C8: exactly one Close on each channel at loop exit. -/

theorem rwStep_no_close (s : RWState) (inp : RWInput) :
    RWOutput.fromPort .close ∉ (rwStep s inp).2.1 ∧
    RWOutput.parserClose ∉ (rwStep s inp).2.1 := by
  cases inp with
  | read r =>
    match r with
    | none => simp [rwStep]
    | some [] => simp [rwStep]
    | some (x :: xs) => simp [rwStep]
  | cmd c writeOk =>
    match c with
    | some (.write d na) =>
      cases writeOk <;> simp [rwStep]
    | some .ack => simp [rwStep]
    | some .heartbeat => simp [rwStep]
    | some .stop => simp [rwStep]
    | none => simp [rwStep]
  | hbFire writeOk d =>
    by_cases hg : (s.hbConfigured && !s.is_need_ack) = true
    · cases writeOk <;> simp [rwStep, hg]
    · simp [rwStep, Bool.eq_false_iff.mpr hg]
  | ackRace notified =>
    by_cases hn : s.is_need_ack = true
    · cases notified <;>
        rcases Bool.eq_false_or_eq_true s.is_heartbeat with hh | hh <;>
        simp [rwStep, hn, hh]
    · simp [rwStep, Bool.eq_false_iff.mpr hn]

theorem rwIter_no_close (stopFlag : Bool) (s : RWState) (inp : RWInput) :
    RWOutput.fromPort .close ∉ (rwIter stopFlag s inp).2.1 ∧
    RWOutput.parserClose ∉ (rwIter stopFlag s inp).2.1 := by
  cases stopFlag
  · cases hp : s.port with
    | none => simp [rwIter, hp]
    | some u => simpa [rwIter, hp] using rwStep_no_close s inp
  · simp [rwIter]

theorem rwRun_zero (stopF : Nat → Bool) (inp : Nat → RWInput) (i : Nat)
    (s : RWState) : rwRun stopF inp 0 i s = ([], false) := rfl

theorem rwRun_succ (stopF : Nat → Bool) (inp : Nat → RWInput) (f i : Nat)
    (s : RWState) :
    rwRun stopF inp (f+1) i s =
      (let r := rwIter (stopF i) s (inp i)
       if r.2.2 then
         let rest := rwRun stopF inp f (i+1) r.1
         (r.2.1 ++ rest.1, rest.2)
       else
         (r.2.1 ++ [.fromPort .close, .parserClose], true)) := rfl

/-- Claim C8: whenever the read/write loop exits — by a `Stop` command,
by the command channel closing, or by the stop flag — the produced trace
ends with exactly one `Close` on the upstream event channel followed by
exactly one `Close` to the downstream parser, and contains no other
`Close` and nothing after them (no further transitions). -/
theorem c8_close_exactly_once (stopF : Nat → Bool) (inp : Nat → RWInput) :
    ∀ (f i : Nat) (s : RWState) (tr : List RWOutput),
      rwRun stopF inp f i s = (tr, true) →
      List.count (RWOutput.fromPort .close) tr = 1 ∧
      List.count RWOutput.parserClose tr = 1 ∧
      ∃ t0, tr = t0 ++ [.fromPort .close, .parserClose] ∧
        RWOutput.fromPort .close ∉ t0 ∧ RWOutput.parserClose ∉ t0 := by
  have main : ∀ (f i : Nat) (s : RWState) (tr : List RWOutput),
      rwRun stopF inp f i s = (tr, true) →
      ∃ t0, tr = t0 ++ [.fromPort .close, .parserClose] ∧
        RWOutput.fromPort .close ∉ t0 ∧ RWOutput.parserClose ∉ t0 := by
    intro f
    induction f with
    | zero =>
      intro i s tr hrun
      rw [rwRun_zero] at hrun
      cases hrun
    | succ f ih =>
      intro i s tr hrun
      rw [rwRun_succ] at hrun
      by_cases hc : (rwIter (stopF i) s (inp i)).2.2 = true
      · rw [if_pos hc] at hrun
        obtain ⟨htr, _⟩ := Prod.mk.injEq .. ▸ hrun
        have hrest : rwRun stopF inp f (i+1) (rwIter (stopF i) s (inp i)).1 =
            ((rwRun stopF inp f (i+1) (rwIter (stopF i) s (inp i)).1).1, true) := by
          have hex : (rwRun stopF inp f (i+1) (rwIter (stopF i) s (inp i)).1).2 = true := by
            have := congrArg Prod.snd hrun
            simpa using this.symm
          exact Prod.ext rfl hex
        obtain ⟨t0, ht0, hn1, hn2⟩ := ih (i+1) _ _ hrest
        refine ⟨(rwIter (stopF i) s (inp i)).2.1 ++ t0, ?_, ?_, ?_⟩
        · have := congrArg Prod.fst hrun
          simp only at this
          rw [← this, ht0, List.append_assoc]
        · intro hmem
          rcases List.mem_append.mp hmem with hmem | hmem
          · exact (rwIter_no_close _ _ _).1 hmem
          · exact hn1 hmem
        · intro hmem
          rcases List.mem_append.mp hmem with hmem | hmem
          · exact (rwIter_no_close _ _ _).2 hmem
          · exact hn2 hmem
      · rw [if_neg hc] at hrun
        have htr := congrArg Prod.fst hrun
        simp only at htr
        refine ⟨(rwIter (stopF i) s (inp i)).2.1, htr.symm ▸ rfl, ?_, ?_⟩
        · exact (rwIter_no_close _ _ _).1
        · exact (rwIter_no_close _ _ _).2
  intro f i s tr hrun
  obtain ⟨t0, ht0, hn1, hn2⟩ := main f i s tr hrun
  subst ht0
  refine ⟨?_, ?_, t0, rfl, hn1, hn2⟩
  · rw [List.count_append]
    rw [List.count_eq_zero.mpr hn1]
    decide
  · rw [List.count_append]
    rw [List.count_eq_zero.mpr hn2]
    decide

/-- Witness for C8: a one-iteration run that receives `Stop` exits with
exactly the two Close events and nothing else. -/
theorem c8_witness :
    rwRun (fun _ => false) (fun _ => .cmd (some .stop) true) 1 0 rwIdle =
      ([.fromPort .close, .parserClose], true) ∧
    List.count (RWOutput.fromPort .close)
      [RWOutput.fromPort .close, RWOutput.parserClose] = 1 ∧
    List.count RWOutput.parserClose
      [RWOutput.fromPort .close, RWOutput.parserClose] = 1 := by
  have hrun : rwRun (fun _ => false) (fun _ => .cmd (some .stop) true) 1 0 rwIdle =
      ([.fromPort .close, .parserClose], true) := rfl
  have h := c8_close_exactly_once (fun _ => false)
    (fun _ => .cmd (some .stop) true) 1 0 rwIdle
    [.fromPort .close, .parserClose] hrun
  exact ⟨hrun, h.1, h.2.1⟩

end LeanLink
